import Mathlib

/-!
Verification development for the OpenAI Assistant API provider adapter
(`OpenAiAssistantHandler`).  The adapter accepts a system prompt plus an
ordered conversation, flattens it into one user message, walks the remote
thread/run/poll protocol, and emits a two-event output sequence.

The embedding below is a shallow translation of the TypeScript source:
pure functions become Lean functions, the HTTP transport and the remote
run resource are abstracted as an explicit environment record, fallible
steps return `Except`, and the adapter's observable behaviour (the events
it yields and the HTTP requests it issues) is returned explicitly.
-/

/-- Maximum number of retries for rate limit errors (`maxRetries` in
`makeApiCall`). -/
def maxRetries : Nat := 2

/-- Fixed retry delay in milliseconds (`retryDelay` in `makeApiCall`). -/
def retryDelay : Nat := 60000

/-- Poll budget in milliseconds (`maxWaitTime`, 5 minutes). -/
def maxWaitTime : Nat := 300000

/-- Poll interval in milliseconds (`pollInterval`, 1 second). -/
def pollInterval : Nat := 1000

/-- Number of poll iterations the loop can perform: `elapsedTime` rises by
`pollInterval` each iteration and the guard requires
`elapsedTime < maxWaitTime`, so at most `maxWaitTime / pollInterval = 300`
fetches happen. -/
def maxPollIters : Nat := maxWaitTime / pollInterval

/-- Content block of an Anthropic `MessageParam` array. Only the `type`
and `text` fields are ever read by the adapter (`part.type === "text"`,
`(part as any).text`). -/
structure MessageTextPart where
  type : String
  text : String
deriving DecidableEq

/-- Content of an Anthropic `MessageParam`: either a plain string or an
ordered list of typed parts.  These are the only two shapes the
TypeScript type admits. -/
inductive AnthropicContent where
  | str (s : String)
  | parts (ps : List MessageTextPart)
deriving DecidableEq

/-- An Anthropic conversation message (`role` plus `content`). -/
structure MessageParam where
  role : String
  content : AnthropicContent
deriving DecidableEq

/-- Per-message rendering inside `constructUserMessage`: string content
becomes `"{role}: {content}"`; array content filters to `text`-typed
parts, joins their text values with a newline, and becomes
`"{role}: {joined}"`.  (The TypeScript `return ""` arm is for content
that is neither a string nor an array, which the type rules out.) -/
def msgToText (msg : MessageParam) : String :=
  match msg.content with
  | .str s => msg.role ++ ": " ++ s
  | .parts ps =>
      msg.role ++ ": " ++
        String.intercalate "\n" ((ps.filter (fun p => p.type == "text")).map (fun p => p.text))

/-- Embedding of `constructUserMessage`: render each message, keep the
renderings of positive length, join them with a blank line, and prepend
the system prompt followed by two newlines. -/
def constructUserMessage (systemPrompt : String) (messages : List MessageParam) : String :=
  systemPrompt ++ "\n\n" ++
    String.intercalate "\n\n" ((messages.map msgToText).filter (fun t => t.length > 0))

/-- Outcome of one attempt of the underlying `axios` transport call, as
observed by the `catch` block of `makeApiCall`: success, an axios error
(carrying `error.response?.status`, `error.response?.data?.error?.message`
and `error.message`), or a non-axios exception which is rethrown as is. -/
inductive TransportResult (α : Type) where
  | ok (v : α)
  | axiosErr (status : Option Nat) (dataMsg : Option String) (errMsg : String)
  | nonAxios (e : String)

/-- Message selection of `makeApiCall`:
`error.response?.data?.error?.message || error.message`.  JavaScript `||`
also falls through when the remote message is the empty string. -/
def axiosErrMessage (dataMsg : Option String) (errMsg : String) : String :=
  match dataMsg with
  | some m => if m = "" then errMsg else m
  | none => errMsg

/-- Embedding of `makeApiCall`.  The transport oracle `tr` gives the
outcome of each attempt (indexed by `retryCount`).  The second component
records the sleep durations taken (one `retryDelay` per 429 retry).
A 429 with `retryCount < maxRetries` sleeps and retries; any other axios
error raises `"OpenAI Assistant API error: {message}"`; a non-axios error
is rethrown unwrapped. -/
def makeApiCall {α : Type} (tr : Nat → TransportResult α) (retryCount : Nat) :
    Except String α × List Nat :=
  match tr retryCount with
  | .ok v => (.ok v, [])
  | .axiosErr status dataMsg errMsg =>
      if h : status = some 429 ∧ retryCount < maxRetries then
        ((makeApiCall tr (retryCount + 1)).1, retryDelay :: (makeApiCall tr (retryCount + 1)).2)
      else
        (.error ("OpenAI Assistant API error: " ++ axiosErrMessage dataMsg errMsg), [])
  | .nonAxios e => (.error e, [])
termination_by maxRetries - retryCount
decreasing_by simp [maxRetries] at *; omega

/-- Tool call listed under a run's `required_action.submit_tool_outputs`.
Only the `id` field is read by the adapter. -/
structure ToolCall where
  id : String
deriving DecidableEq

/-- The `submit_tool_outputs` payload of a `required_action`. -/
structure SubmitToolOutputs where
  tool_calls : List ToolCall
deriving DecidableEq

/-- The optional `required_action` field of a run response. -/
structure RequiredAction where
  submit_tool_outputs : SubmitToolOutputs
deriving DecidableEq

/-- The optional `last_error` field of a run response. -/
structure LastError where
  code : String
  message : String
deriving DecidableEq

/-- Fields of a remote `RunResponse` that the adapter reads. -/
structure RunResponse where
  status : String
  required_action : Option RequiredAction := none
  last_error : Option LastError := none
deriving DecidableEq

/-- Content part of a listed thread message.  `text` holds the `value` of
the part's text object when that object is present (`text?.value`). -/
structure ListedContentPart where
  type : String
  text : Option String
deriving DecidableEq

/-- Entry of the list-messages response. -/
structure ListedMessage where
  role : String
  content : List ListedContentPart
deriving DecidableEq

/-- One entry submitted to the submit-tool-outputs endpoint. -/
structure ToolOutput where
  tool_call_id : String
  output : String
deriving DecidableEq

/-- Observable HTTP requests issued by one `createMessage` invocation.
`getRun` is tagged with the elapsed-time value at which the fetch
happens, so the call log records when each poll occurred. -/
inductive ApiCall where
  | createThread
  | addMessage (content : String)
  | createRun (assistantId : String)
  | getRun (elapsed : Nat)
  | submitToolOutputs (outputs : List ToolOutput)
  | listMessages
deriving DecidableEq

/-- Events yielded by `createMessage` (the `ApiStream` items). -/
inductive ApiEvent where
  | text (text : String)
  | usage (inputTokens outputTokens : Nat)
deriving DecidableEq

/-- Behaviour of the remote service during one invocation: the result of
each API call `createMessage` makes.  `polls` is indexed by the elapsed
time at which the run is fetched, and `submits` by the elapsed time at
which tool outputs are submitted. -/
structure CreateEnv where
  threadCall : Except String Unit
  messageCall : Except String Unit
  runCall : Except String RunResponse
  polls : Nat → Except String RunResponse
  submits : Nat → Except String Unit
  listCall : Except String (List ListedMessage)

/-- Test for the three terminal failure statuses of a run
(`runStatus === "failed" || "cancelled" || "expired"` branch). -/
def isFailureStatus (st : String) : Bool :=
  st == "failed" || st == "cancelled" || st == "expired"

/-- Error-detail string for a terminal run failure: the remote
`last_error` code and message when present, else the generic marker. -/
def errorDetails (r : RunResponse) : String :=
  match r.last_error with
  | some le => le.code ++ ": " ++ le.message
  | none => "No error details available"

/-- One placeholder output per listed tool call, pairing the tool call's
identifier with the fixed string `"Tool execution not implemented"`. -/
def placeholderOutputs (ra : RequiredAction) : List ToolOutput :=
  ra.submit_tool_outputs.tool_calls.map
    (fun call => { tool_call_id := call.id, output := "Tool execution not implemented" })

/-- Embedding of the poll loop of `createMessage` (step 4).  Each
iteration sleeps, adds `pollInterval` to `elapsed`, re-fetches the run,
aborts on a terminal failure status, submits placeholder outputs when the
status is `requires_action` and `required_action` is present, and
otherwise keeps polling; the loop exits when the status is `"completed"`
or `elapsed` reaches `maxWaitTime`.  Because `elapsed` grows by
`pollInterval` every iteration, the loop runs at most
`maxWaitTime / pollInterval` times; `fuel` makes that bound an explicit
structural argument, and the `fuel = 0` base case returns exactly what
the exhausted guard returns, so with `fuel = maxPollIters` and
`elapsed = 0` (the only way `createMessage` calls it) the function is the
loop verbatim.  The result pairs the loop outcome (the final status, or
the thrown error) with the log of HTTP requests the loop issued. -/
def pollLoop (env : CreateEnv) : Nat → String → Nat → Except String String × List ApiCall
  | 0, runStatus, _ => (.ok runStatus, [])
  | fuel + 1, runStatus, elapsed =>
    if runStatus ≠ "completed" ∧ elapsed < maxWaitTime then
      match env.polls (elapsed + pollInterval) with
      | .error e => (.error e, [.getRun (elapsed + pollInterval)])
      | .ok currentRun =>
        if isFailureStatus currentRun.status then
          (.error ("Assistant run " ++ currentRun.status ++ ": " ++ errorDetails currentRun),
           [.getRun (elapsed + pollInterval)])
        else
          match (if currentRun.status = "requires_action" then currentRun.required_action else none) with
          | some ra =>
            match env.submits (elapsed + pollInterval) with
            | .error e =>
                (.error e,
                 [.getRun (elapsed + pollInterval), .submitToolOutputs (placeholderOutputs ra)])
            | .ok _ =>
                ((pollLoop env fuel currentRun.status (elapsed + pollInterval)).1,
                 .getRun (elapsed + pollInterval) ::
                   .submitToolOutputs (placeholderOutputs ra) ::
                   (pollLoop env fuel currentRun.status (elapsed + pollInterval)).2)
          | none =>
              ((pollLoop env fuel currentRun.status (elapsed + pollInterval)).1,
               .getRun (elapsed + pollInterval) ::
                 (pollLoop env fuel currentRun.status (elapsed + pollInterval)).2)
    else (.ok runStatus, [])

/-- Text extracted from the latest assistant message (step 5): filter its
content to parts whose type is `"text"` and whose text object is present,
then join their values with `"\n"`. -/
def assistantText (m : ListedMessage) : String :=
  String.intercalate "\n"
    ((m.content.filter (fun c => c.type == "text" && c.text.isSome)).map (fun c => c.text.getD ""))

/-- Body of the `try` block of `createMessage`: create a thread, post the
flattened message, create a run, poll it, then list the thread's messages
and build the two output events from the first assistant-role entry.
Errors are returned unwrapped (the surrounding catch wraps them).  The
second component is the log of HTTP requests issued. -/
def cmBody (assistantId systemPrompt : String) (msgs : List MessageParam) (env : CreateEnv) :
    Except String (List ApiEvent) × List ApiCall :=
  match env.threadCall with
  | .error e => (.error e, [.createThread])
  | .ok _ =>
    match env.messageCall with
    | .error e => (.error e, [.createThread, .addMessage (constructUserMessage systemPrompt msgs)])
    | .ok _ =>
      match env.runCall with
      | .error e =>
          (.error e,
           [.createThread, .addMessage (constructUserMessage systemPrompt msgs),
            .createRun assistantId])
      | .ok run =>
        match pollLoop env maxPollIters run.status 0 with
        | (.error e, pollCalls) =>
            (.error e,
             [.createThread, .addMessage (constructUserMessage systemPrompt msgs),
              .createRun assistantId] ++ pollCalls)
        | (.ok finalStatus, pollCalls) =>
          if finalStatus ≠ "completed" then
            (.error "Assistant run timeout",
             [.createThread, .addMessage (constructUserMessage systemPrompt msgs),
              .createRun assistantId] ++ pollCalls)
          else
            match env.listCall with
            | .error e =>
                (.error e,
                 [.createThread, .addMessage (constructUserMessage systemPrompt msgs),
                  .createRun assistantId] ++ pollCalls ++ [.listMessages])
            | .ok listing =>
              match listing.filter (fun m => m.role == "assistant") with
              | [] =>
                  (.error "No assistant response found",
                   [.createThread, .addMessage (constructUserMessage systemPrompt msgs),
                    .createRun assistantId] ++ pollCalls ++ [.listMessages])
              | latest :: _ =>
                  (.ok [.text (assistantText latest), .usage 0 0],
                   [.createThread, .addMessage (constructUserMessage systemPrompt msgs),
                    .createRun assistantId] ++ pollCalls ++ [.listMessages])

/-- Embedding of `createMessage`.  The missing-assistant-id check happens
before the `try` block, so its error is raised unwrapped and before any
HTTP request; every error thrown inside the `try` block is an `Error` and
is re-raised as `"OpenAI Assistant error: {message}"`. -/
def createMessage (assistantId systemPrompt : String) (msgs : List MessageParam)
    (env : CreateEnv) : Except String (List ApiEvent) × List ApiCall :=
  if assistantId = "" then
    (.error "OpenAI Assistant ID is required", [])
  else
    match cmBody assistantId systemPrompt msgs env with
    | (.error e, calls) => (.error ("OpenAI Assistant error: " ++ e), calls)
    | (.ok evs, calls) => (.ok evs, calls)

/-- Configuration fields the constructor reads (the relevant slice of
`ApiHandlerOptions`). -/
structure ApiHandlerOptions where
  openAiAssistantBaseUrl : Option String
  openAiAssistantApiKey : Option String
  openAiAssistantId : Option String

/-- JavaScript `x || dflt` on an optional string: the default is used
when the field is unset or the empty string. -/
def jsStringOr (v : Option String) (dflt : String) : String :=
  match v with
  | some s => if s = "" then dflt else s
  | none => dflt

/-- Constructor binding `this.baseURL = options.openAiAssistantBaseUrl || "https://api.openai.com/v1"`. -/
def resolvedBaseUrl (o : ApiHandlerOptions) : String :=
  jsStringOr o.openAiAssistantBaseUrl "https://api.openai.com/v1"

/-- Constructor binding `this.apiKey = options.openAiAssistantApiKey || ""`. -/
def resolvedApiKey (o : ApiHandlerOptions) : String :=
  jsStringOr o.openAiAssistantApiKey ""

/-- Constructor binding `this.assistantId = options.openAiAssistantId || ""`. -/
def resolvedAssistantId (o : ApiHandlerOptions) : String :=
  jsStringOr o.openAiAssistantId ""

/-- Run response with status `"queued"` and no optional fields. -/
def runQueued : RunResponse := { status := "queued" }

/-- Run response with status `"completed"` and no optional fields. -/
def runCompleted : RunResponse := { status := "completed" }

/-- Run response with status `"in_progress"` and no optional fields. -/
def runInProgress : RunResponse := { status := "in_progress" }

/-- Run response with status `"failed"` and no optional fields. -/
def runFailed : RunResponse := { status := "failed" }

/-- Baseline concrete environment: every call succeeds, the run starts
`"queued"`, the first poll reports `"completed"`, and the thread listing
is empty. -/
def baseEnv : CreateEnv where
  threadCall := .ok ()
  messageCall := .ok ()
  runCall := .ok runQueued
  polls := fun _ => .ok runCompleted
  submits := fun _ => .ok ()
  listCall := .ok []

/-- Listed assistant message holding two text parts and one non-text
part. -/
def listedAssistantMsg : ListedMessage where
  role := "assistant"
  content :=
    [{ type := "text", text := some "Hello" },
     { type := "image_file", text := none },
     { type := "text", text := some "World" }]

/-- Listed user message holding one text part. -/
def listedUserMsg : ListedMessage where
  role := "user"
  content := [{ type := "text", text := some "hi" }]

/-- Environment whose completed run leaves one assistant message holding
two text parts and one non-text part. -/
def envListed : CreateEnv :=
  { baseEnv with listCall := .ok [listedAssistantMsg] }

/-- Environment whose completed run leaves only a user message on the
thread (zero assistant-role entries). -/
def envUserOnly : CreateEnv :=
  { baseEnv with listCall := .ok [listedUserMsg] }

/-- Environment whose run reports `"failed"` (without `last_error`) at
every poll. -/
def envAlwaysFailed : CreateEnv :=
  { baseEnv with polls := fun _ => .ok runFailed }

/-- Environment whose run reports `"in_progress"` at every poll, so the
poll budget is exhausted. -/
def envAlwaysInProgress : CreateEnv :=
  { baseEnv with polls := fun _ => .ok runInProgress }

/-- Environment whose run is cancelled with a populated `last_error`. -/
def envCancelled : CreateEnv :=
  { baseEnv with
      polls := fun _ => .ok
        { status := "cancelled",
          last_error := some { code := "server_error", message := "boom" } } }

/-- Environment whose run requires action with two listed tool calls. -/
def envRequiresAction : CreateEnv :=
  { baseEnv with
      polls := fun _ => .ok
        { status := "requires_action",
          required_action := some
            { submit_tool_outputs := { tool_calls := [{ id := "call_1" }, { id := "call_2" }] } } } }

/-- Environment whose run reports `"requires_action"` with the
`required_action` payload absent. -/
def envRequiresActionAbsent : CreateEnv :=
  { baseEnv with polls := fun _ => .ok { status := "requires_action" } }

/-- Transport oracle that returns HTTP 429 on the first two attempts and
succeeds on the third. -/
def tr429Twice : Nat → TransportResult Nat := fun n =>
  match n with
  | 0 => .axiosErr (some 429) none "Request failed with status code 429"
  | 1 => .axiosErr (some 429) none "Request failed with status code 429"
  | _ => .ok 7

/-- Every per-message rendering contains `": "`, so its length is
positive: the `length > 0` filter of `constructUserMessage` never drops a
message. -/
theorem msgToText_length_pos (m : MessageParam) : 0 < (msgToText m).length := by
  have h2 : (": " : String).length = 2 := rfl
  cases h : m.content with
  | str s => simp only [msgToText, h, String.length_append, h2]; omega
  | parts ps => simp only [msgToText, h, String.length_append, h2]; omega

/-- Unfolding of `makeApiCall` on a successful attempt. -/
theorem makeApiCall_eq_ok {α : Type} (tr : Nat → TransportResult α) (rc : Nat) (v : α)
    (h : tr rc = .ok v) : makeApiCall tr rc = (.ok v, []) := by
  conv_lhs => rw [makeApiCall.eq_def]
  rw [h]

/-- Unfolding of `makeApiCall` on a 429 attempt with retries left: it
sleeps `retryDelay` and retries. -/
theorem makeApiCall_eq_retry {α : Type} (tr : Nat → TransportResult α) (rc : Nat)
    (d : Option String) (m : String)
    (h : tr rc = .axiosErr (some 429) d m) (hrc : rc < maxRetries) :
    makeApiCall tr rc =
      ((makeApiCall tr (rc + 1)).1, retryDelay :: (makeApiCall tr (rc + 1)).2) := by
  conv_lhs => rw [makeApiCall.eq_def]
  rw [h]
  exact dif_pos ⟨rfl, hrc⟩

/-- Unfolding of `makeApiCall` on an axios error that is not retried
(non-429 status, or retries exhausted): the wrapped error is raised. -/
theorem makeApiCall_eq_noRetry {α : Type} (tr : Nat → TransportResult α) (rc : Nat)
    (st : Option Nat) (d : Option String) (m : String)
    (h : tr rc = .axiosErr st d m) (hcond : ¬(st = some 429 ∧ rc < maxRetries)) :
    makeApiCall tr rc =
      (.error ("OpenAI Assistant API error: " ++ axiosErrMessage d m), []) := by
  conv_lhs => rw [makeApiCall.eq_def]
  rw [h]
  exact dif_neg hcond

/-- With zero fuel the loop returns the current status unchanged. -/
theorem pollLoop_zero (env : CreateEnv) (s : String) (elapsed : Nat) :
    pollLoop env 0 s elapsed = (.ok s, []) := rfl

/-- Once the status is `"completed"` the loop guard fails and the loop
exits with that status, issuing no further requests. -/
theorem pollLoop_completed (env : CreateEnv) (f elapsed : Nat) :
    pollLoop env f "completed" elapsed = (.ok "completed", []) := by
  cases f with
  | zero => rfl
  | succ f =>
      simp only [pollLoop]
      rw [if_neg (fun hc => hc.1 rfl)]

/-- Once `elapsed` has reached `maxWaitTime` the guard fails and the loop
exits with whatever status it has, issuing no further requests. -/
theorem pollLoop_budget (env : CreateEnv) (f : Nat) (s : String) (elapsed : Nat)
    (h : maxWaitTime ≤ elapsed) : pollLoop env f s elapsed = (.ok s, []) := by
  cases f with
  | zero => rfl
  | succ f =>
      simp only [pollLoop]
      rw [if_neg (fun hc => absurd hc.2 (Nat.not_lt.mpr h))]

/-- A quiet poll iteration: the fetched status is not a terminal failure,
and either it is not `requires_action`, or its tool outputs are
submitted successfully; the loop result is that of continuing from the
fetched status with the advanced elapsed time. -/
theorem pollLoop_quiet_step (env : CreateEnv) (f : Nat) (s : String) (elapsed : Nat)
    (r : RunResponse) (hs : s ≠ "completed") (he : elapsed < maxWaitTime)
    (hp : env.polls (elapsed + pollInterval) = .ok r)
    (hf : isFailureStatus r.status = false)
    (hsub : ∀ ra, r.status = "requires_action" → r.required_action = some ra →
      env.submits (elapsed + pollInterval) = .ok ()) :
    (pollLoop env (f + 1) s elapsed).1 = (pollLoop env f r.status (elapsed + pollInterval)).1 := by
  simp only [pollLoop]
  rw [if_pos ⟨hs, he⟩, hp]
  dsimp only
  rw [hf]
  rw [if_neg Bool.false_ne_true]
  by_cases hreq : r.status = "requires_action"
  · rw [if_pos hreq]
    cases hact : r.required_action with
    | none => rfl
    | some ra =>
        rw [hsub ra hreq hact]
  · rw [if_neg hreq]

/-- A poll iteration that fetches a terminal failure status aborts with
the run-failure error embedding `errorDetails`. -/
theorem pollLoop_failure_step (env : CreateEnv) (f : Nat) (s : String) (elapsed : Nat)
    (r : RunResponse) (hs : s ≠ "completed") (he : elapsed < maxWaitTime)
    (hp : env.polls (elapsed + pollInterval) = .ok r)
    (hf : isFailureStatus r.status = true) :
    pollLoop env (f + 1) s elapsed =
      (.error ("Assistant run " ++ r.status ++ ": " ++ errorDetails r),
       [.getRun (elapsed + pollInterval)]) := by
  simp only [pollLoop]
  rw [if_pos ⟨hs, he⟩, hp]
  dsimp only
  rw [hf]
  rw [if_pos rfl]

/-- A poll iteration that fetches `requires_action` with the payload
present submits one placeholder output per tool call and then continues
polling from the advanced elapsed time. -/
theorem pollLoop_action_step (env : CreateEnv) (f : Nat) (s : String) (elapsed : Nat)
    (r : RunResponse) (ra : RequiredAction)
    (hs : s ≠ "completed") (he : elapsed < maxWaitTime)
    (hp : env.polls (elapsed + pollInterval) = .ok r)
    (hreq : r.status = "requires_action") (hact : r.required_action = some ra)
    (hsub : env.submits (elapsed + pollInterval) = .ok ()) :
    pollLoop env (f + 1) s elapsed =
      ((pollLoop env f "requires_action" (elapsed + pollInterval)).1,
       .getRun (elapsed + pollInterval) ::
         .submitToolOutputs (placeholderOutputs ra) ::
         (pollLoop env f "requires_action" (elapsed + pollInterval)).2) := by
  simp only [pollLoop]
  rw [if_pos ⟨hs, he⟩, hp]
  dsimp only
  have hf : isFailureStatus r.status = false := by rw [hreq]; rfl
  rw [hf]
  rw [if_neg Bool.false_ne_true]
  rw [if_pos hreq, hact]
  dsimp only
  rw [hsub]
  dsimp only
  rw [hreq]

/-- A poll iteration that fetches `requires_action` with the payload
absent issues no submit call and simply continues polling from the
advanced elapsed time. -/
theorem pollLoop_action_absent_step (env : CreateEnv) (f : Nat) (s : String) (elapsed : Nat)
    (r : RunResponse)
    (hs : s ≠ "completed") (he : elapsed < maxWaitTime)
    (hp : env.polls (elapsed + pollInterval) = .ok r)
    (hreq : r.status = "requires_action") (hact : r.required_action = none) :
    pollLoop env (f + 1) s elapsed =
      ((pollLoop env f "requires_action" (elapsed + pollInterval)).1,
       .getRun (elapsed + pollInterval) ::
         (pollLoop env f "requires_action" (elapsed + pollInterval)).2) := by
  simp only [pollLoop]
  rw [if_pos ⟨hs, he⟩, hp]
  dsimp only
  have hf : isFailureStatus r.status = false := by rw [hreq]; rfl
  rw [hf]
  rw [if_neg Bool.false_ne_true]
  rw [if_pos hreq, hact]
  dsimp only
  rw [hreq]

/-- Walking `k` quiet iterations of the poll loop: when the polls at
elapsed times `elapsed + pollInterval * 1 .. elapsed + pollInterval * k`
all succeed with non-completed, non-failure statuses (and any required
tool-output submissions succeed), the loop outcome equals that of
continuing from the status fetched at step `k` with the accumulated
elapsed time — the budget is never reset. -/
theorem pollLoop_walk (env : CreateEnv) :
    ∀ (k : Nat) (σ : Nat → RunResponse) (f : Nat) (s : String) (elapsed : Nat),
      s ≠ "completed" →
      elapsed + pollInterval * k ≤ maxWaitTime →
      (∀ j, 1 ≤ j → j ≤ k →
        env.polls (elapsed + pollInterval * j) = .ok (σ j) ∧
        (σ j).status ≠ "completed" ∧
        isFailureStatus (σ j).status = false ∧
        env.submits (elapsed + pollInterval * j) = .ok ()) →
      (pollLoop env (k + f) s elapsed).1 =
        (pollLoop env f (if k = 0 then s else (σ k).status) (elapsed + pollInterval * k)).1 := by
  intro k
  induction k with
  | zero =>
      intro σ f s elapsed hs hb hq
      simp
  | succ k ih =>
      intro σ f s elapsed hs hb hq
      have hppos : 0 < pollInterval := by decide
      have hpos : 0 < pollInterval * (k + 1) := Nat.mul_pos hppos (Nat.succ_pos k)
      have he : elapsed < maxWaitTime := by omega
      have h1 := hq 1 (Nat.le_refl 1) (by omega)
      rw [Nat.mul_one] at h1
      have harith : ∀ j : Nat,
          (elapsed + pollInterval) + pollInterval * j = elapsed + pollInterval * (j + 1) := by
        intro j; ring
      have hfe : k + 1 + f = (k + f) + 1 := by omega
      rw [hfe]
      have hstep := pollLoop_quiet_step env (k + f) s elapsed (σ 1) hs he h1.1 h1.2.2.1
        (fun ra _ _ => h1.2.2.2)
      rw [hstep]
      have ih' := ih (fun j => σ (j + 1)) f (σ 1).status (elapsed + pollInterval)
        h1.2.1
        (by rw [harith k]; exact hb)
        (by
          intro j hj1 hjk
          have hqj := hq (j + 1) (by omega) (by omega)
          rw [harith j]
          exact hqj)
      rw [ih']
      rw [harith k]
      rw [if_neg (Nat.succ_ne_zero k)]
      by_cases hk0 : k = 0
      · subst hk0
        rw [if_pos rfl]
      · rw [if_neg hk0]

/-- When the first `k - 1` polls are quiet and the `k`-th poll (within
the budget) reports `"completed"`, the loop started with the initial run
status exits with `"completed"`. -/
theorem pollLoop_reaches_completed (env : CreateEnv) (σ : Nat → RunResponse) (k : Nat)
    (s : String) (rk : RunResponse)
    (hs : s ≠ "completed") (hk1 : 1 ≤ k) (hk : k ≤ maxPollIters)
    (hq : ∀ j, 1 ≤ j → j < k →
      env.polls (pollInterval * j) = .ok (σ j) ∧ (σ j).status ≠ "completed" ∧
      isFailureStatus (σ j).status = false ∧ env.submits (pollInterval * j) = .ok ())
    (hck : env.polls (pollInterval * k) = .ok rk) (hcs : rk.status = "completed") :
    (pollLoop env maxPollIters s 0).1 = .ok "completed" := by
  obtain ⟨m, rfl⟩ : ∃ m, k = m + 1 := ⟨k - 1, by omega⟩
  have hmul : pollInterval * maxPollIters = maxWaitTime := by decide
  have hexp : pollInterval * (m + 1) = pollInterval * m + pollInterval := by ring
  have hppos : 0 < pollInterval := by decide
  have hle : pollInterval * (m + 1) ≤ pollInterval * maxPollIters :=
    Nat.mul_le_mul_left pollInterval hk
  obtain ⟨f0, hf0⟩ : ∃ f0, maxPollIters = m + (f0 + 1) := ⟨maxPollIters - m - 1, by omega⟩
  have hb : 0 + pollInterval * m ≤ maxWaitTime := by omega
  have hq' : ∀ j, 1 ≤ j → j ≤ m →
      env.polls (0 + pollInterval * j) = .ok (σ j) ∧ (σ j).status ≠ "completed" ∧
      isFailureStatus (σ j).status = false ∧ env.submits (0 + pollInterval * j) = .ok () := by
    intro j hj1 hjm
    rw [Nat.zero_add]
    exact hq j hj1 (by omega)
  conv_lhs => rw [hf0]
  rw [pollLoop_walk env m σ (f0 + 1) s 0 hs hb hq']
  have hs' : (if m = 0 then s else (σ m).status) ≠ "completed" := by
    by_cases hm : m = 0
    · rw [if_pos hm]; exact hs
    · rw [if_neg hm]; exact (hq m (by omega) (by omega)).2.1
  have he' : 0 + pollInterval * m < maxWaitTime := by omega
  have hpk : env.polls ((0 + pollInterval * m) + pollInterval) = .ok rk := by
    have harg : (0 + pollInterval * m) + pollInterval = pollInterval * (m + 1) := by ring
    rw [harg]; exact hck
  rw [pollLoop_quiet_step env f0 (if m = 0 then s else (σ m).status) (0 + pollInterval * m) rk
    hs' he' hpk (by rw [hcs]; rfl) (fun ra hra _ => absurd (hcs.symm.trans hra) (by decide))]
  rw [hcs, pollLoop_completed]

/-- When the first `k - 1` polls are quiet and the `k`-th poll (within
the budget) reports a terminal failure status, the loop aborts with the
run-failure error for that run. -/
theorem pollLoop_reaches_failure (env : CreateEnv) (σ : Nat → RunResponse) (k : Nat)
    (s : String) (rk : RunResponse)
    (hs : s ≠ "completed") (hk1 : 1 ≤ k) (hk : k ≤ maxPollIters)
    (hq : ∀ j, 1 ≤ j → j < k →
      env.polls (pollInterval * j) = .ok (σ j) ∧ (σ j).status ≠ "completed" ∧
      isFailureStatus (σ j).status = false ∧ env.submits (pollInterval * j) = .ok ())
    (hck : env.polls (pollInterval * k) = .ok rk)
    (hfail : isFailureStatus rk.status = true) :
    (pollLoop env maxPollIters s 0).1 =
      .error ("Assistant run " ++ rk.status ++ ": " ++ errorDetails rk) := by
  obtain ⟨m, rfl⟩ : ∃ m, k = m + 1 := ⟨k - 1, by omega⟩
  have hmul : pollInterval * maxPollIters = maxWaitTime := by decide
  have hexp : pollInterval * (m + 1) = pollInterval * m + pollInterval := by ring
  have hppos : 0 < pollInterval := by decide
  have hle : pollInterval * (m + 1) ≤ pollInterval * maxPollIters :=
    Nat.mul_le_mul_left pollInterval hk
  obtain ⟨f0, hf0⟩ : ∃ f0, maxPollIters = m + (f0 + 1) := ⟨maxPollIters - m - 1, by omega⟩
  have hb : 0 + pollInterval * m ≤ maxWaitTime := by omega
  have hq' : ∀ j, 1 ≤ j → j ≤ m →
      env.polls (0 + pollInterval * j) = .ok (σ j) ∧ (σ j).status ≠ "completed" ∧
      isFailureStatus (σ j).status = false ∧ env.submits (0 + pollInterval * j) = .ok () := by
    intro j hj1 hjm
    rw [Nat.zero_add]
    exact hq j hj1 (by omega)
  conv_lhs => rw [hf0]
  rw [pollLoop_walk env m σ (f0 + 1) s 0 hs hb hq']
  have hs' : (if m = 0 then s else (σ m).status) ≠ "completed" := by
    by_cases hm : m = 0
    · rw [if_pos hm]; exact hs
    · rw [if_neg hm]; exact (hq m (by omega) (by omega)).2.1
  have he' : 0 + pollInterval * m < maxWaitTime := by omega
  have hpk : env.polls ((0 + pollInterval * m) + pollInterval) = .ok rk := by
    have harg : (0 + pollInterval * m) + pollInterval = pollInterval * (m + 1) := by ring
    rw [harg]; exact hck
  rw [pollLoop_failure_step env f0 (if m = 0 then s else (σ m).status) (0 + pollInterval * m) rk
    hs' he' hpk hfail]

/-- When every poll in the whole budget succeeds with a non-completed,
non-failure status (and submissions succeed), the loop consumes all 300
iterations and exits with the final non-completed status: exhausting the
elapsed-time budget is the only way out without `"completed"`. -/
theorem pollLoop_timeout_run (env : CreateEnv) (σ : Nat → RunResponse) (s : String)
    (hs : s ≠ "completed")
    (hq : ∀ j, 1 ≤ j → j ≤ maxPollIters →
      env.polls (pollInterval * j) = .ok (σ j) ∧ (σ j).status ≠ "completed" ∧
      isFailureStatus (σ j).status = false ∧ env.submits (pollInterval * j) = .ok ()) :
    (pollLoop env maxPollIters s 0).1 = .ok ((σ maxPollIters).status) ∧
      (σ maxPollIters).status ≠ "completed" := by
  have hq' : ∀ j, 1 ≤ j → j ≤ maxPollIters →
      env.polls (0 + pollInterval * j) = .ok (σ j) ∧ (σ j).status ≠ "completed" ∧
      isFailureStatus (σ j).status = false ∧ env.submits (0 + pollInterval * j) = .ok () := by
    intro j hj1 hjm
    rw [Nat.zero_add]
    exact hq j hj1 hjm
  constructor
  · have hwalk := pollLoop_walk env maxPollIters σ 0 s 0 hs (by decide) hq'
    rw [Nat.add_zero] at hwalk
    rw [hwalk]
    rw [if_neg (by decide : ¬ maxPollIters = 0)]
    rw [pollLoop_zero]
  · exact (hq maxPollIters (by decide) (Nat.le_refl maxPollIters)).2.1

/-- Every submit-tool-outputs request the poll loop issues originates
from a poll whose run status was `requires_action` with the
`required_action` payload present, and its outputs are exactly the
placeholder outputs for that payload's tool calls. -/
theorem pollLoop_submit_origin (env : CreateEnv) :
    ∀ (f : Nat) (s : String) (elapsed : Nat) (touts : List ToolOutput),
      ApiCall.submitToolOutputs touts ∈ (pollLoop env f s elapsed).2 →
      ∃ e r ra, env.polls e = .ok r ∧ r.status = "requires_action" ∧
        r.required_action = some ra ∧ touts = placeholderOutputs ra := by
  intro f
  induction f with
  | zero =>
      intro s elapsed touts h
      simp [pollLoop] at h
  | succ f ih =>
      intro s elapsed touts h
      simp only [pollLoop] at h
      by_cases hg : s ≠ "completed" ∧ elapsed < maxWaitTime
      · rw [if_pos hg] at h
        cases hp : env.polls (elapsed + pollInterval) with
        | error e =>
            rw [hp] at h
            simp at h
        | ok r =>
            rw [hp] at h
            dsimp only at h
            by_cases hfail : isFailureStatus r.status = true
            · rw [if_pos hfail] at h
              simp at h
            · rw [if_neg hfail] at h
              by_cases hreq : r.status = "requires_action"
              · rw [if_pos hreq] at h
                cases hact : r.required_action with
                | none =>
                    rw [hact] at h
                    dsimp only at h
                    rcases List.mem_cons.mp h with h1 | h2
                    · exact absurd h1 (by simp)
                    · exact ih r.status (elapsed + pollInterval) touts h2
                | some ra =>
                    rw [hact] at h
                    dsimp only at h
                    cases hsub : env.submits (elapsed + pollInterval) with
                    | error e =>
                        rw [hsub] at h
                        dsimp only at h
                        rcases List.mem_cons.mp h with h1 | h2
                        · exact absurd h1 (by simp)
                        · rcases List.mem_cons.mp h2 with h3 | h4
                          · refine ⟨elapsed + pollInterval, r, ra, hp, hreq, hact, ?_⟩
                            exact (ApiCall.submitToolOutputs.injEq _ _).mp h3
                          · simp at h4
                    | ok u =>
                        rw [hsub] at h
                        dsimp only at h
                        rcases List.mem_cons.mp h with h1 | h2
                        · exact absurd h1 (by simp)
                        · rcases List.mem_cons.mp h2 with h3 | h4
                          · refine ⟨elapsed + pollInterval, r, ra, hp, hreq, hact, ?_⟩
                            exact (ApiCall.submitToolOutputs.injEq _ _).mp h3
                          · exact ih r.status (elapsed + pollInterval) touts h4
              · rw [if_neg hreq] at h
                dsimp only at h
                rcases List.mem_cons.mp h with h1 | h2
                · exact absurd h1 (by simp)
                · exact ih r.status (elapsed + pollInterval) touts h2
      · rw [if_neg hg] at h
        simp at h

/-- With a non-empty assistant id, `createMessage` is the catch-wrapping
of the try-block body: errors gain the `"OpenAI Assistant error: "`
prefix, successful event lists pass through. -/
theorem createMessage_wrap (assistantId systemPrompt : String) (msgs : List MessageParam)
    (env : CreateEnv) (haid : assistantId ≠ "") :
    (createMessage assistantId systemPrompt msgs env).1 =
      match (cmBody assistantId systemPrompt msgs env).1 with
      | .error e => .error ("OpenAI Assistant error: " ++ e)
      | .ok evs => .ok evs := by
  unfold createMessage
  rw [if_neg haid]
  rcases hb : cmBody assistantId systemPrompt msgs env with ⟨r, calls⟩
  cases r with
  | error e => rfl
  | ok evs => rfl

/-- When the first three protocol calls succeed, the try-block result is
determined by the poll-loop outcome, the list call, and the assistant
filter over the listing. -/
theorem cmBody_poll (assistantId systemPrompt : String) (msgs : List MessageParam)
    (env : CreateEnv) (run0 : RunResponse)
    (hT : env.threadCall = .ok ()) (hM : env.messageCall = .ok ())
    (hR : env.runCall = .ok run0) :
    (cmBody assistantId systemPrompt msgs env).1 =
      match (pollLoop env maxPollIters run0.status 0).1 with
      | .error e => .error e
      | .ok finalStatus =>
        if finalStatus ≠ "completed" then .error "Assistant run timeout"
        else
          match env.listCall with
          | .error e => .error e
          | .ok listing =>
            match listing.filter (fun m => m.role == "assistant") with
            | [] => .error "No assistant response found"
            | latest :: _ => .ok [.text (assistantText latest), .usage 0 0] := by
  unfold cmBody
  rw [hT, hM, hR]
  dsimp only
  rcases hpl : pollLoop env maxPollIters run0.status 0 with ⟨pres, pcalls⟩
  cases pres with
  | error e => rfl
  | ok finalStatus =>
      dsimp only
      by_cases hfs : finalStatus = "completed"
      · rw [if_neg (not_not_intro hfs), if_neg (not_not_intro hfs)]
        cases hL : env.listCall with
        | error e => rfl
        | ok listing =>
            dsimp only
            cases hfl : listing.filter (fun m => m.role == "assistant") with
            | nil => rfl
            | cons latest rest => rfl
      · rw [if_pos hfs, if_pos hfs]

/-- C1 counterexample: a message whose content is an array with zero
text-typed parts is NOT excluded from the flattened text — it renders as
`"user: "` (the `length > 0` filter keeps it, since every rendering
contains `": "`), so the result differs from the claim's predicted
`"S\n\n"` (system prompt, two newlines, empty join of survivors). -/
theorem constructUserMessage_zero_text_parts_kept :
    constructUserMessage "S" [{ role := "user", content := .parts [] }] = "S\n\nuser: " ∧
    constructUserMessage "S" [{ role := "user", content := .parts [] }] ≠ "S\n\n" := by
  exact ⟨rfl, by decide⟩

/-- C1 (amended): the flattened text is the system prompt followed by
exactly two newline characters, then the per-message strings
`"{role}: {content}"` (for array content, `{content}` is the
newline-join of its text-typed parts) joined by `"\n\n"` — no message is
ever dropped, because every rendering `"{role}: …"` has positive length,
so the `length > 0` filter keeps all of them; in particular a message
with zero text-typed parts appears as `"{role}: "` rather than being
excluded. -/
theorem constructUserMessage_flatten (systemPrompt : String) (msgs : List MessageParam) :
    constructUserMessage systemPrompt msgs =
      systemPrompt ++ "\n\n" ++ String.intercalate "\n\n" (msgs.map msgToText) := by
  unfold constructUserMessage
  have hfil : (msgs.map msgToText).filter (fun t => t.length > 0) = msgs.map msgToText := by
    apply List.filter_eq_self.mpr
    intro a ha
    rcases List.mem_map.mp ha with ⟨m, hm, rfl⟩
    simpa using msgToText_length_pos m
  rw [hfil]

/-- C3: whenever the configured assistant identifier is unset or the
empty string, the resolved identifier is `""`, so `createMessage` fails
immediately with `"OpenAI Assistant ID is required"` and issues no HTTP
request (the call log is empty), regardless of the prompt, the messages
and the remote behaviour. -/
theorem createMessage_missing_assistant_id (o : ApiHandlerOptions)
    (h : o.openAiAssistantId = none ∨ o.openAiAssistantId = some "")
    (systemPrompt : String) (msgs : List MessageParam) (env : CreateEnv) :
    createMessage (resolvedAssistantId o) systemPrompt msgs env =
      (.error "OpenAI Assistant ID is required", []) := by
  have hid : resolvedAssistantId o = "" := by
    rcases h with h | h <;> simp [resolvedAssistantId, jsStringOr, h]
  rw [hid]
  rfl

/-- C3 witness: a configuration with `openAiAssistantId` unset. -/
theorem createMessage_missing_assistant_id_witness :
    createMessage
      (resolvedAssistantId
        { openAiAssistantBaseUrl := none, openAiAssistantApiKey := none,
          openAiAssistantId := none })
      "S" [] baseEnv = (.error "OpenAI Assistant ID is required", []) :=
  createMessage_missing_assistant_id _ (Or.inl rfl) "S" [] baseEnv

/-- C4: the retry policy of `makeApiCall`.  A 429 on the first two
attempts causes two retries after a `retryDelay` (60000 ms) sleep each,
so two 429s followed by success return the successful value after two
delays; a 429 on the third attempt raises the wrapped error (the
remote-provided message when present and non-empty, else the transport
message, prefixed by the provider name); any non-429 axios failure
raises the wrapped error immediately with no retry and no delay. -/
theorem makeApiCall_retry_policy {α : Type} (tr : Nat → TransportResult α) :
    (∀ (v : α) (d0 : Option String) (m0 : String) (d1 : Option String) (m1 : String),
      tr 0 = .axiosErr (some 429) d0 m0 → tr 1 = .axiosErr (some 429) d1 m1 →
      tr 2 = .ok v →
      makeApiCall tr 0 = (.ok v, [retryDelay, retryDelay])) ∧
    (∀ (d0 : Option String) (m0 : String) (d1 : Option String) (m1 : String)
        (d2 : Option String) (m2 : String),
      tr 0 = .axiosErr (some 429) d0 m0 → tr 1 = .axiosErr (some 429) d1 m1 →
      tr 2 = .axiosErr (some 429) d2 m2 →
      makeApiCall tr 0 =
        (.error ("OpenAI Assistant API error: " ++ axiosErrMessage d2 m2),
         [retryDelay, retryDelay])) ∧
    (∀ (st : Option Nat) (d : Option String) (m : String), st ≠ some 429 →
      tr 0 = .axiosErr st d m →
      makeApiCall tr 0 =
        (.error ("OpenAI Assistant API error: " ++ axiosErrMessage d m), [])) := by
  refine ⟨?_, ?_, ?_⟩
  · intro v d0 m0 d1 m1 h0 h1 h2
    rw [makeApiCall_eq_retry tr 0 d0 m0 h0 (by decide),
        makeApiCall_eq_retry tr 1 d1 m1 h1 (by decide),
        makeApiCall_eq_ok tr 2 v h2]
  · intro d0 m0 d1 m1 d2 m2 h0 h1 h2
    rw [makeApiCall_eq_retry tr 0 d0 m0 h0 (by decide),
        makeApiCall_eq_retry tr 1 d1 m1 h1 (by decide),
        makeApiCall_eq_noRetry tr 2 (some 429) d2 m2 h2
          (fun hc => absurd hc.2 (by decide))]
  · intro st d m hst h0
    rw [makeApiCall_eq_noRetry tr 0 st d m h0 (fun hc => hst hc.1)]

/-- C4 witness: a transport that returns 429 twice and then succeeds
with the value 7 makes `makeApiCall` return 7 after two 60-second
delays. -/
theorem makeApiCall_retry_policy_witness :
    makeApiCall tr429Twice 0 = (.ok 7, [retryDelay, retryDelay]) :=
  (makeApiCall_retry_policy tr429Twice).1 7 none "Request failed with status code 429"
    none "Request failed with status code 429" rfl rfl rfl

/-- C2 counterexample: an invocation whose run reaches `"completed"` at
the first poll but whose thread listing contains no assistant-role
message emits no events at all — `createMessage` fails with the wrapped
empty-response error instead of emitting the two events the claim
promises for every completed run. -/
theorem createMessage_completed_but_no_events :
    (createMessage "asst_123" "S" [] baseEnv).1 =
      .error "OpenAI Assistant error: No assistant response found" ∧
    ¬ ∃ evs, (createMessage "asst_123" "S" [] baseEnv).1 = .ok evs := by
  refine ⟨rfl, ?_⟩
  rintro ⟨evs, h⟩
  exact Except.noConfusion h

/-- C2 (amended): for every invocation whose run reaches `"completed"`
within the poll budget (quiet polls until poll `k ≤ 300` reports
`completed`) and whose subsequent list-messages call succeeds with at
least one assistant-role message, `createMessage` emits exactly two
events in order: a text event whose text is the newline-join of the
values of the text-typed content parts (those carrying a text object) of
the first assistant-role message, then a usage event with zero input and
output tokens. -/
theorem createMessage_completed_two_events
    (env : CreateEnv) (σ : Nat → RunResponse) (k : Nat)
    (assistantId systemPrompt : String) (msgs : List MessageParam)
    (run0 rk : RunResponse) (listing : List ListedMessage)
    (latest : ListedMessage) (rest : List ListedMessage)
    (haid : assistantId ≠ "")
    (hT : env.threadCall = .ok ()) (hM : env.messageCall = .ok ())
    (hR : env.runCall = .ok run0) (h0 : run0.status ≠ "completed")
    (hk1 : 1 ≤ k) (hk : k ≤ maxPollIters)
    (hq : ∀ j, 1 ≤ j → j < k →
      env.polls (pollInterval * j) = .ok (σ j) ∧ (σ j).status ≠ "completed" ∧
      isFailureStatus (σ j).status = false ∧ env.submits (pollInterval * j) = .ok ())
    (hck : env.polls (pollInterval * k) = .ok rk) (hcs : rk.status = "completed")
    (hL : env.listCall = .ok listing)
    (hA : listing.filter (fun m => m.role == "assistant") = latest :: rest) :
    (createMessage assistantId systemPrompt msgs env).1 =
      .ok [ApiEvent.text (assistantText latest), ApiEvent.usage 0 0] := by
  rw [createMessage_wrap assistantId systemPrompt msgs env haid,
      cmBody_poll assistantId systemPrompt msgs env run0 hT hM hR]
  rw [pollLoop_reaches_completed env σ k run0.status rk h0 hk1 hk hq hck hcs]
  dsimp only
  rw [if_neg (not_not_intro rfl), hL]
  dsimp only
  rw [hA]

/-- C2 witness: run completed at the first poll, one assistant message
with text parts `"Hello"` and `"World"` (plus a non-text part). -/
theorem createMessage_completed_two_events_witness :
    (createMessage "asst_123" "S" [] envListed).1 =
      .ok [ApiEvent.text "Hello\nWorld", ApiEvent.usage 0 0] := by
  have h := createMessage_completed_two_events envListed (fun _ => runCompleted) 1
    "asst_123" "S" [] runQueued runCompleted [listedAssistantMsg] listedAssistantMsg []
    (by decide) rfl rfl rfl (by decide) (by decide) (by decide)
    (fun j hj1 hj2 => absurd hj2 (by omega))
    rfl rfl rfl (by decide)
  rw [h]
  rfl

/-- C5 counterexample: a run whose status is `"failed"` at every poll
never becomes `"completed"` within the budget, yet `createMessage` fails
with the run-failure error, not the timeout error the claim predicts. -/
theorem createMessage_never_completed_not_timeout :
    (createMessage "asst_123" "S" [] envAlwaysFailed).1 =
      .error "OpenAI Assistant error: Assistant run failed: No error details available" ∧
    "OpenAI Assistant error: Assistant run failed: No error details available" ≠
      "OpenAI Assistant error: Assistant run timeout" := by
  exact ⟨rfl, by decide⟩

/-- C5 (amended): for every invocation whose poll fetches all succeed
and whose run status never becomes `"completed"` nor any terminal
failure state within the 300-iteration budget (any tool-output
submissions succeeding), `createMessage` fails with the timeout error —
and emits no events; exhausting the elapsed-time budget is the only way
the poll loop exits normally without `"completed"` (a terminal failure
or transport error instead aborts with that error, not the timeout). -/
theorem createMessage_poll_budget_timeout
    (env : CreateEnv) (σ : Nat → RunResponse)
    (assistantId systemPrompt : String) (msgs : List MessageParam) (run0 : RunResponse)
    (haid : assistantId ≠ "")
    (hT : env.threadCall = .ok ()) (hM : env.messageCall = .ok ())
    (hR : env.runCall = .ok run0) (h0 : run0.status ≠ "completed")
    (hq : ∀ j, 1 ≤ j → j ≤ maxPollIters →
      env.polls (pollInterval * j) = .ok (σ j) ∧ (σ j).status ≠ "completed" ∧
      isFailureStatus (σ j).status = false ∧ env.submits (pollInterval * j) = .ok ()) :
    (createMessage assistantId systemPrompt msgs env).1 =
      .error "OpenAI Assistant error: Assistant run timeout" := by
  rw [createMessage_wrap assistantId systemPrompt msgs env haid,
      cmBody_poll assistantId systemPrompt msgs env run0 hT hM hR]
  obtain ⟨hok, hne⟩ := pollLoop_timeout_run env σ run0.status h0 hq
  rw [hok]
  dsimp only
  rw [if_pos hne]
  rfl

/-- C5 witness: a run that reports `"in_progress"` at every poll times
out after the full budget. -/
theorem createMessage_poll_budget_timeout_witness :
    (createMessage "asst_123" "S" [] envAlwaysInProgress).1 =
      .error "OpenAI Assistant error: Assistant run timeout" := by
  refine createMessage_poll_budget_timeout envAlwaysInProgress (fun _ => runInProgress)
    "asst_123" "S" [] runQueued (by decide) rfl rfl rfl (by decide) ?_
  intro j hj1 hj2
  refine ⟨rfl, ?_, ?_, rfl⟩
  · show runInProgress.status ≠ "completed"
    decide
  · show isFailureStatus runInProgress.status = false
    decide

/-- C6: a poll iteration that fetches `"requires_action"` with a
`required_action` payload present submits exactly one output per listed
tool call — each pairing that tool call's identifier with the fixed
placeholder `"Tool execution not implemented"` — and then resumes
polling from the advanced elapsed time with the remaining budget: the
elapsed-time accumulator carries over, it is not reset. -/
theorem pollLoop_requires_action_submits
    (env : CreateEnv) (f : Nat) (s : String) (elapsed : Nat)
    (r : RunResponse) (ra : RequiredAction)
    (hs : s ≠ "completed") (he : elapsed < maxWaitTime)
    (hp : env.polls (elapsed + pollInterval) = .ok r)
    (hreq : r.status = "requires_action") (hact : r.required_action = some ra)
    (hsub : env.submits (elapsed + pollInterval) = .ok ()) :
    pollLoop env (f + 1) s elapsed =
      ((pollLoop env f "requires_action" (elapsed + pollInterval)).1,
       .getRun (elapsed + pollInterval) ::
         .submitToolOutputs
           (ra.submit_tool_outputs.tool_calls.map
             (fun call =>
               { tool_call_id := call.id, output := "Tool execution not implemented" })) ::
         (pollLoop env f "requires_action" (elapsed + pollInterval)).2) :=
  pollLoop_action_step env f s elapsed r ra hs he hp hreq hact hsub

/-- C6 witness: a `requires_action` run with two listed tool calls
causes one submit-tool-outputs request carrying exactly two placeholder
outputs, then polling resumes at elapsed time 1000. -/
theorem pollLoop_requires_action_submits_witness :
    pollLoop envRequiresAction 1 "queued" 0 =
      ((pollLoop envRequiresAction 0 "requires_action" 1000).1,
       .getRun 1000 ::
         .submitToolOutputs
           [{ tool_call_id := "call_1", output := "Tool execution not implemented" },
            { tool_call_id := "call_2", output := "Tool execution not implemented" }] ::
         (pollLoop envRequiresAction 0 "requires_action" 1000).2) := by
  exact pollLoop_requires_action_submits envRequiresAction 0 "queued" 0
    { status := "requires_action",
      required_action := some
        { submit_tool_outputs := { tool_calls := [{ id := "call_1" }, { id := "call_2" }] } } }
    { submit_tool_outputs := { tool_calls := [{ id := "call_1" }, { id := "call_2" }] } }
    (by decide) (by decide) rfl rfl rfl rfl

/-- C7: when the quiet polls are followed by a poll (within the budget)
whose run status is `"failed"`, `"cancelled"` or `"expired"`,
`createMessage` aborts with an error embedding the run's `last_error`
code and message when that field is present and the generic
`"No error details available"` marker otherwise, wrapped with the
provider prefix; the result is an error, so no events are emitted. -/
theorem createMessage_terminal_failure_error
    (env : CreateEnv) (σ : Nat → RunResponse) (k : Nat)
    (assistantId systemPrompt : String) (msgs : List MessageParam)
    (run0 rk : RunResponse)
    (haid : assistantId ≠ "")
    (hT : env.threadCall = .ok ()) (hM : env.messageCall = .ok ())
    (hR : env.runCall = .ok run0) (h0 : run0.status ≠ "completed")
    (hk1 : 1 ≤ k) (hk : k ≤ maxPollIters)
    (hq : ∀ j, 1 ≤ j → j < k →
      env.polls (pollInterval * j) = .ok (σ j) ∧ (σ j).status ≠ "completed" ∧
      isFailureStatus (σ j).status = false ∧ env.submits (pollInterval * j) = .ok ())
    (hck : env.polls (pollInterval * k) = .ok rk)
    (hfail : isFailureStatus rk.status = true) :
    (createMessage assistantId systemPrompt msgs env).1 =
      .error ("OpenAI Assistant error: " ++ ("Assistant run " ++ rk.status ++ ": " ++
        match rk.last_error with
        | some le => le.code ++ ": " ++ le.message
        | none => "No error details available")) := by
  rw [createMessage_wrap assistantId systemPrompt msgs env haid,
      cmBody_poll assistantId systemPrompt msgs env run0 hT hM hR]
  rw [pollLoop_reaches_failure env σ k run0.status rk h0 hk1 hk hq hck hfail]
  rfl

/-- C7 witness: a run cancelled at the first poll with a populated
`last_error` surfaces its code and message inside the wrapped error. -/
theorem createMessage_terminal_failure_error_witness :
    (createMessage "asst_123" "S" [] envCancelled).1 =
      .error "OpenAI Assistant error: Assistant run cancelled: server_error: boom" := by
  have h := createMessage_terminal_failure_error envCancelled (fun _ => runInProgress) 1
    "asst_123" "S" [] runQueued
    { status := "cancelled", last_error := some { code := "server_error", message := "boom" } }
    (by decide) rfl rfl rfl (by decide) (by decide) (by decide)
    (fun j hj1 hj2 => absurd hj2 (by omega))
    rfl (by decide)
  rw [h]
  rfl

/-- C8: when the run completes within the budget but the successful
thread listing contains zero assistant-role messages, `createMessage`
fails with the wrapped empty-response error; the result is an error, so
the invocation emits no events at all — the output sequence either
carries both events (see the completed case) or nothing. -/
theorem createMessage_no_assistant_message_error
    (env : CreateEnv) (σ : Nat → RunResponse) (k : Nat)
    (assistantId systemPrompt : String) (msgs : List MessageParam)
    (run0 rk : RunResponse) (listing : List ListedMessage)
    (haid : assistantId ≠ "")
    (hT : env.threadCall = .ok ()) (hM : env.messageCall = .ok ())
    (hR : env.runCall = .ok run0) (h0 : run0.status ≠ "completed")
    (hk1 : 1 ≤ k) (hk : k ≤ maxPollIters)
    (hq : ∀ j, 1 ≤ j → j < k →
      env.polls (pollInterval * j) = .ok (σ j) ∧ (σ j).status ≠ "completed" ∧
      isFailureStatus (σ j).status = false ∧ env.submits (pollInterval * j) = .ok ())
    (hck : env.polls (pollInterval * k) = .ok rk) (hcs : rk.status = "completed")
    (hL : env.listCall = .ok listing)
    (hA : listing.filter (fun m => m.role == "assistant") = []) :
    (createMessage assistantId systemPrompt msgs env).1 =
      .error "OpenAI Assistant error: No assistant response found" := by
  rw [createMessage_wrap assistantId systemPrompt msgs env haid,
      cmBody_poll assistantId systemPrompt msgs env run0 hT hM hR]
  rw [pollLoop_reaches_completed env σ k run0.status rk h0 hk1 hk hq hck hcs]
  dsimp only
  rw [if_neg (not_not_intro rfl), hL]
  dsimp only
  rw [hA]
  rfl

/-- C8 witness: run completed at the first poll, listing holding only a
user message. -/
theorem createMessage_no_assistant_message_error_witness :
    (createMessage "asst_123" "S" [] envUserOnly).1 =
      .error "OpenAI Assistant error: No assistant response found" := by
  have h := createMessage_no_assistant_message_error envUserOnly (fun _ => runCompleted) 1
    "asst_123" "S" [] runQueued runCompleted [listedUserMsg]
    (by decide) rfl rfl rfl (by decide) (by decide) (by decide)
    (fun j hj1 hj2 => absurd hj2 (by omega))
    rfl rfl rfl (by decide)
  exact h

/-- C9: every error an invocation of `createMessage` raises — the
configuration error (thrown before the `try` block, whose own message
happens to begin with the provider name) as well as every try-block
error re-raised as `"OpenAI Assistant error: {message}"` — has a message
that starts with the provider display name `"OpenAI Assistant"`. -/
theorem createMessage_error_prefixed (assistantId systemPrompt : String)
    (msgs : List MessageParam) (env : CreateEnv) (e : String)
    (h : (createMessage assistantId systemPrompt msgs env).1 = .error e) :
    ∃ rest, e = "OpenAI Assistant" ++ rest := by
  by_cases haid : assistantId = ""
  · unfold createMessage at h
    rw [if_pos haid] at h
    dsimp only at h
    injection h with h'
    exact ⟨" ID is required", by rw [← h']; rfl⟩
  · rw [createMessage_wrap assistantId systemPrompt msgs env haid] at h
    rcases hb : (cmBody assistantId systemPrompt msgs env).1 with e' | evs
    · rw [hb] at h
      dsimp only at h
      injection h with h'
      refine ⟨" error: " ++ e', ?_⟩
      rw [← h', ← String.append_assoc]
      rfl
    · rw [hb] at h
      dsimp only at h
      exact Except.noConfusion h

/-- C9 witness: the configuration error raised for an empty assistant id
starts with the provider display name. -/
theorem createMessage_error_prefixed_witness :
    ∃ rest, "OpenAI Assistant ID is required" = "OpenAI Assistant" ++ rest :=
  createMessage_error_prefixed "" "S" [] baseEnv "OpenAI Assistant ID is required" rfl

/-- C10: the submit-tool-outputs endpoint is never called unless a
fetched run had status `requires_action` with its `required_action`
payload present (second conjunct: every submit request in the loop's
call log originates from such a poll and carries exactly its placeholder
outputs); and a poll iteration whose run status is `requires_action`
with the payload absent issues no submit request and raises no error —
it simply keeps polling with the accumulated elapsed time, so the loop
runs on until the status changes or the budget is exhausted (first
conjunct). -/
theorem pollLoop_submit_only_with_required_action (env : CreateEnv) :
    (∀ (f : Nat) (s : String) (elapsed : Nat) (r : RunResponse),
      s ≠ "completed" → elapsed < maxWaitTime →
      env.polls (elapsed + pollInterval) = .ok r →
      r.status = "requires_action" → r.required_action = none →
      pollLoop env (f + 1) s elapsed =
        ((pollLoop env f "requires_action" (elapsed + pollInterval)).1,
         .getRun (elapsed + pollInterval) ::
           (pollLoop env f "requires_action" (elapsed + pollInterval)).2)) ∧
    (∀ (f : Nat) (s : String) (elapsed : Nat) (touts : List ToolOutput),
      ApiCall.submitToolOutputs touts ∈ (pollLoop env f s elapsed).2 →
      ∃ e r ra, env.polls e = .ok r ∧ r.status = "requires_action" ∧
        r.required_action = some ra ∧ touts = placeholderOutputs ra) :=
  ⟨fun f s elapsed r hs he hp hreq hact =>
      pollLoop_action_absent_step env f s elapsed r hs he hp hreq hact,
   fun f s elapsed touts h => pollLoop_submit_origin env f s elapsed touts h⟩

/-- C10 witness: a `requires_action` run without a `required_action`
payload produces a poll iteration that only fetches the run and
continues polling. -/
theorem pollLoop_submit_only_with_required_action_witness :
    pollLoop envRequiresActionAbsent 1 "queued" 0 =
      ((pollLoop envRequiresActionAbsent 0 "requires_action" 1000).1,
       .getRun 1000 :: (pollLoop envRequiresActionAbsent 0 "requires_action" 1000).2) := by
  exact (pollLoop_submit_only_with_required_action envRequiresActionAbsent).1 0 "queued" 0
    { status := "requires_action" } (by decide) (by decide) rfl rfl rfl
